import Mathlib

/-!
Verification of `chocs/json_schema/type_validators.py`.

The validators operate on already-decoded JSON values.  We embed the decoded
values as a tagged union `Value`, with one dedicated case per JSON kind
(so a boolean is never represented by the integer case, mirroring the fact
that the Python code dispatches on `value is True or value is False` and on
`isinstance`, and really distinguishes `bool` from `int` at call sites).
Real numbers appear only as an opaque payload that the validators never
inspect arithmetically; we use `Rat` for it.

Errors: the repository raises `TypeValidationError(expected_type=..., value=...)`
(the `value=` keyword is passed only by `validate_string`) and
`EnumValidationError(expected_values=...)`.  We embed them as a sum type
carrying exactly the data passed at each raise site.

Fallible Python functions become Lean functions into `Except ValidationError Value`.
-/

/-- Decoded JSON value: tagged union over the six primitive kinds plus null. -/
inductive Value where
  | str : String → Value
  | bool : Bool → Value
  | int : Int → Value
  | float : Rat → Value
  | arr : List Value → Value
  | obj : List (String × Value) → Value
  | null : Value

/-- Expected-type descriptor as passed to `TypeValidationError(expected_type=...)`.
In the source, `str`/`bool`/`int`/`Number` are the Python classes and
`"array"`/`"object"` are string literals; only the tag matters here. -/
inductive TypeDescriptor where
  | str | bool | int | number | array | object
deriving DecidableEq

/-- Validation error taxonomy: `TypeValidationError` carries the expected-type
descriptor and an optional offending value (`value=` keyword argument);
`EnumValidationError` carries the full expected-values sequence. -/
inductive ValidationError where
  | typeMismatch (expected : TypeDescriptor) (value : Option Value)
  | enumMismatch (expectedValues : List Value)

/-- `isinstance(value, str)` on a decoded value. -/
def isinstance_str : Value → Bool
  | .str _ => true
  | _ => false

/-- `value is True` on a decoded value (Python's `True` is a singleton). -/
def is_True : Value → Bool
  | .bool true => true
  | _ => false

/-- `value is False` on a decoded value (Python's `False` is a singleton). -/
def is_False : Value → Bool
  | .bool false => true
  | _ => false

/-- `isinstance(value, int)` on a decoded value: Python `bool` is a subclass of
`int`, so the boolean kind also satisfies this check. -/
def isinstance_int : Value → Bool
  | .int _ => true
  | .bool _ => true
  | _ => false

/-- `isinstance(value, numbers.Number)` on a decoded value: true for the
integer, boolean and real-number kinds. -/
def isinstance_Number : Value → Bool
  | .int _ => true
  | .bool _ => true
  | .float _ => true
  | _ => false

/-- `isinstance(value, list)` on a decoded value. -/
def isinstance_list : Value → Bool
  | .arr _ => true
  | _ => false

/-- `isinstance(value, dict)` on a decoded value. -/
def isinstance_dict : Value → Bool
  | .obj _ => true
  | _ => false

/-- `value is None` on a decoded value (`None` is a singleton). -/
def is_none : Value → Bool
  | .null => true
  | _ => false

/-- Python `is` (identity) between decoded scalar values, as used by
`validate_enum` (`item is value`).  For the scalar kinds admitted by the
annotation `List[Union[str, int, float, bool]]` — and for the `None`
singleton — identity holds exactly when kind and payload coincide
(CPython interns the literals the schema compiler produces; the spec's
recommended typed-equality reading).  Two container values built by
separate decodings are distinct objects, so identity is `false` there. -/
def is_identical : Value → Value → Bool
  | .str a, .str b => a = b
  | .bool a, .bool b => a = b
  | .int a, .int b => a = b
  | .float a, .float b => a = b
  | .null, .null => true
  | _, _ => false

/-- `validate_string`: return the value if it is of string kind, otherwise
raise `TypeValidationError(value=value, expected_type=str)`. -/
def validate_string (value : Value) : Except ValidationError Value :=
  if isinstance_str value then
    .ok value
  else
    .error (.typeMismatch .str (some value))

/-- `validate_boolean`: return the value if `value is True or value is False`,
otherwise raise `TypeValidationError(expected_type=bool)`. -/
def validate_boolean (value : Value) : Except ValidationError Value :=
  if is_True value || is_False value then
    .ok value
  else
    .error (.typeMismatch .bool none)

/-- The `for item in values: if item is value: return value` loop of
`validate_enum`: reports whether some candidate, scanned in declared order,
is identical to the value. -/
def enum_scan (value : Value) : List Value → Bool
  | [] => false
  | item :: rest =>
    if is_identical item value then true else enum_scan value rest

/-- `validate_enum`: scan `values` in order with identity comparison
(comment in the source: `if value in values` would cast, which is unwanted);
return the value on the first identity match, otherwise raise
`EnumValidationError(expected_values=values)` with the full sequence. -/
def validate_enum (value : Value) (values : List Value) :
    Except ValidationError Value :=
  if enum_scan value values then
    .ok value
  else
    .error (.enumMismatch values)

/-- `validate_integer`: return the value if `isinstance(value, int)` and it is
not a boolean literal, otherwise raise `TypeValidationError(expected_type=int)`. -/
def validate_integer (value : Value) : Except ValidationError Value :=
  if isinstance_int value && !is_True value && !is_False value then
    .ok value
  else
    .error (.typeMismatch .int none)

/-- `validate_number`: raise `TypeValidationError(expected_type=Number)` on
boolean literals first; then return the value if `isinstance(value, Number)`,
otherwise raise the same error. -/
def validate_number (value : Value) : Except ValidationError Value :=
  if is_True value || is_False value then
    .error (.typeMismatch .number none)
  else if isinstance_Number value then
    .ok value
  else
    .error (.typeMismatch .number none)

/-- `validate_array`: raise `TypeValidationError(expected_type="array")` unless
the value is a list, otherwise return it. -/
def validate_array (value : Value) : Except ValidationError Value :=
  if !isinstance_list value then
    .error (.typeMismatch .array none)
  else
    .ok value

/-- `validate_object`: raise `TypeValidationError(expected_type="object")`
unless the value is a dict, otherwise return it. -/
def validate_object (value : Value) : Except ValidationError Value :=
  if !isinstance_dict value then
    .error (.typeMismatch .object none)
  else
    .ok value

/-- `validate_nullable`: return `None` immediately when `value is None`,
otherwise delegate to the given validator. -/
def validate_nullable (value : Value)
    (validator : Value → Except ValidationError Value) :
    Except ValidationError Value :=
  if is_none value then
    .ok .null
  else
    validator value

/-! ## Helper lemmas characterising each validator's outcomes -/

theorem validate_string_ok_iff (v w : Value) :
    validate_string v = .ok w ↔ isinstance_str v = true ∧ v = w := by
  cases v <;> simp [validate_string, isinstance_str]

theorem validate_boolean_ok_iff (v w : Value) :
    validate_boolean v = .ok w ↔ (is_True v || is_False v) = true ∧ v = w := by
  cases v
  case bool b => cases b <;> simp [validate_boolean, is_True, is_False]
  all_goals simp [validate_boolean, is_True, is_False]

theorem validate_integer_ok_iff (v w : Value) :
    validate_integer v = .ok w ↔
      (isinstance_int v && !is_True v && !is_False v) = true ∧ v = w := by
  cases v
  case bool b => cases b <;> simp [validate_integer, isinstance_int, is_True, is_False]
  all_goals simp [validate_integer, isinstance_int, is_True, is_False]

theorem validate_number_ok_iff (v w : Value) :
    validate_number v = .ok w ↔
      (is_True v || is_False v) = false ∧ isinstance_Number v = true ∧ v = w := by
  cases v
  case bool b => cases b <;> simp [validate_number, isinstance_Number, is_True, is_False]
  all_goals simp [validate_number, isinstance_Number, is_True, is_False]

theorem validate_array_ok_iff (v w : Value) :
    validate_array v = .ok w ↔ isinstance_list v = true ∧ v = w := by
  cases v <;> simp [validate_array, isinstance_list]

theorem validate_object_ok_iff (v w : Value) :
    validate_object v = .ok w ↔ isinstance_dict v = true ∧ v = w := by
  cases v <;> simp [validate_object, isinstance_dict]

theorem validate_enum_ok_iff (v w : Value) (vs : List Value) :
    validate_enum v vs = .ok w ↔ enum_scan v vs = true ∧ v = w := by
  unfold validate_enum
  split <;> rename_i h <;> simp [h]

theorem enum_scan_append (v : Value) (l1 l2 : List Value) :
    enum_scan v (l1 ++ l2) = (enum_scan v l1 || enum_scan v l2) := by
  induction l1 with
  | nil => rfl
  | cons x xs ih =>
    simp only [List.cons_append, enum_scan]
    split <;> simp [ih]

theorem enum_scan_eq_false_of_no_match (v : Value) (vs : List Value)
    (h : ∀ x ∈ vs, is_identical x v = false) : enum_scan v vs = false := by
  induction vs with
  | nil => rfl
  | cons x xs ih =>
    have hx := h x (List.mem_cons_self x xs)
    simp only [enum_scan, hx]
    simpa using ih fun y hy => h y (List.mem_cons_of_mem x hy)

/-! ## Claims -/

/-- Claim C1: for every boolean literal `b`, `validate_boolean b` returns `b`,
while `validate_integer b` and `validate_number b` raise `TypeMismatch`, even
though the boolean kind satisfies the host's `isinstance(value, int)` check
(booleans are structurally a subtype of integers). -/
theorem boolean_excluded_from_numeric_validators (b : Bool) :
    validate_boolean (.bool b) = .ok (.bool b) ∧
    validate_integer (.bool b) = .error (.typeMismatch .int none) ∧
    validate_number (.bool b) = .error (.typeMismatch .number none) ∧
    isinstance_int (.bool b) = true := by
  cases b <;> exact ⟨rfl, rfl, rfl, rfl⟩

/-- Claim C2: `validate_enum` matches by identity (kind and value must match
exactly), never by cross-kind loose equality: `validate_enum 1 [true, 1, 2]`
returns `1`, and `validate_enum true [1, 2]` raises `EnumMismatch`. -/
theorem enum_matches_by_identity :
    validate_enum (.int 1) [.bool true, .int 1, .int 2] = .ok (.int 1) ∧
    validate_enum (.bool true) [.int 1, .int 2] =
      .error (.enumMismatch [.int 1, .int 2]) :=
  ⟨rfl, rfl⟩

/-- Claim C3: `validate_nullable value inner` returns null immediately on the
null value, for every validator `inner` whatsoever (so `inner` is never
consulted); on every non-null value it is exactly the bare call `inner value`,
so the result on success and the error on failure are the unaltered ones. -/
theorem nullable_short_circuits_and_delegates :
    (∀ f, validate_nullable .null f = .ok .null) ∧
    (∀ v f, is_none v = false → validate_nullable v f = f v) := by
  constructor
  · intro f; rfl
  · intro v f h; simp [validate_nullable, h]

/-- Witness for C3: delegation at the concrete non-null value `5` with
`validate_string` as the wrapped validator. -/
theorem nullable_delegation_witness :
    validate_nullable (.int 5) validate_string = validate_string (.int 5) :=
  nullable_short_circuits_and_delegates.2 (.int 5) validate_string rfl

/-- Claim C4: every integer-kind value (non-boolean whole number) passes
`validate_integer` unchanged; every real-number-kind value raises
`TypeMismatch`. -/
theorem integer_accepts_whole_rejects_fractional :
    (∀ n : Int, validate_integer (.int n) = .ok (.int n)) ∧
    (∀ q : Rat, validate_integer (.float q) = .error (.typeMismatch .int none)) :=
  ⟨fun _ => rfl, fun _ => rfl⟩

/-- Claim C5: every non-boolean numeric value (integer kind or real-number
kind) passes `validate_number` unchanged; boolean values and every value of a
non-numeric kind raise `TypeMismatch`. -/
theorem number_accepts_numeric_rejects_others :
    (∀ n : Int, validate_number (.int n) = .ok (.int n)) ∧
    (∀ q : Rat, validate_number (.float q) = .ok (.float q)) ∧
    (∀ b : Bool, validate_number (.bool b) = .error (.typeMismatch .number none)) ∧
    (∀ v, isinstance_Number v = false →
      validate_number v = .error (.typeMismatch .number none)) := by
  refine ⟨fun _ => rfl, fun _ => rfl, fun b => ?_, fun v h => ?_⟩
  · cases b <;> rfl
  · cases v <;> simp_all [validate_number, isinstance_Number, is_True, is_False]

/-- Witness for C5: the string `"a"` is of non-numeric kind and is rejected by
`validate_number`. -/
theorem number_rejection_witness :
    validate_number (.str "a") = .error (.typeMismatch .number none) :=
  number_accepts_numeric_rejects_others.2.2.2 (.str "a") rfl

/-- Claim C6: `validate_enum` scans the allowed candidates in declared order
without reordering or deduplicating: whenever no candidate before `item`
matches and `item` matches by identity, the value is returned regardless of
what follows; and when every candidate fails, the raised `EnumMismatch`
carries the full allowed sequence. -/
theorem enum_first_match_and_exhaustive_error :
    (∀ v (pre : List Value) item suf, (∀ x ∈ pre, is_identical x v = false) →
      is_identical item v = true →
      validate_enum v (pre ++ item :: suf) = .ok v) ∧
    (∀ v vs, (∀ x ∈ vs, is_identical x v = false) →
      validate_enum v vs = .error (.enumMismatch vs)) := by
  constructor
  · intro v pre item suf hpre hitem
    have h1 : enum_scan v pre = false := enum_scan_eq_false_of_no_match v pre hpre
    have h2 : enum_scan v (pre ++ item :: suf) = true := by
      simp [enum_scan_append, h1, enum_scan, hitem]
    simp [validate_enum, h2]
  · intro v vs h
    have h1 := enum_scan_eq_false_of_no_match v vs h
    simp [validate_enum, h1]

/-- Witness for C6: first-match after a non-matching candidate, and the
exhausted-candidates error carrying the full sequence, at concrete inputs. -/
theorem enum_order_witness :
    validate_enum (.int 2) ([.bool true] ++ .int 2 :: [.int 3]) = .ok (.int 2) ∧
    validate_enum (.str "a") [.int 0] = .error (.enumMismatch [.int 0]) :=
  ⟨enum_first_match_and_exhaustive_error.1 (.int 2) [.bool true] (.int 2) [.int 3]
      (by decide) (by decide),
   enum_first_match_and_exhaustive_error.2 (.str "a") [.int 0] (by decide)⟩

/-- Claim C7: every string-kind value passes `validate_string` unchanged, and
every value of a different kind raises `TypeMismatch` whose expected-type
descriptor is the string kind (carrying the offending value). -/
theorem string_validator_contract :
    (∀ s : String, validate_string (.str s) = .ok (.str s)) ∧
    (∀ v, isinstance_str v = false →
      validate_string v = .error (.typeMismatch .str (some v))) := by
  constructor
  · intro s; rfl
  · intro v h; simp [validate_string, h]

/-- Witness for C7: the integer `5` is not of string kind and is rejected with
the string-kind descriptor. -/
theorem string_contract_witness :
    validate_string (.int 5) = .error (.typeMismatch .str (some (.int 5))) :=
  string_validator_contract.2 (.int 5) rfl

/-- Claim C8: each of the six primitive validators and the enum validator
(with a fixed allowed sequence) is idempotent: reapplying it to its own
successful output returns that same output. -/
theorem validators_idempotent (v w : Value) :
    (validate_string v = .ok w → validate_string w = .ok w) ∧
    (validate_boolean v = .ok w → validate_boolean w = .ok w) ∧
    (validate_integer v = .ok w → validate_integer w = .ok w) ∧
    (validate_number v = .ok w → validate_number w = .ok w) ∧
    (validate_array v = .ok w → validate_array w = .ok w) ∧
    (validate_object v = .ok w → validate_object w = .ok w) ∧
    (∀ vs, validate_enum v vs = .ok w → validate_enum w vs = .ok w) := by
  refine ⟨?_, ?_, ?_, ?_, ?_, ?_, ?_⟩
  · intro h
    obtain ⟨hc, rfl⟩ := (validate_string_ok_iff v w).mp h
    exact (validate_string_ok_iff v v).mpr ⟨hc, rfl⟩
  · intro h
    obtain ⟨hc, rfl⟩ := (validate_boolean_ok_iff v w).mp h
    exact (validate_boolean_ok_iff v v).mpr ⟨hc, rfl⟩
  · intro h
    obtain ⟨hc, rfl⟩ := (validate_integer_ok_iff v w).mp h
    exact (validate_integer_ok_iff v v).mpr ⟨hc, rfl⟩
  · intro h
    obtain ⟨hc, hn, rfl⟩ := (validate_number_ok_iff v w).mp h
    exact (validate_number_ok_iff v v).mpr ⟨hc, hn, rfl⟩
  · intro h
    obtain ⟨hc, rfl⟩ := (validate_array_ok_iff v w).mp h
    exact (validate_array_ok_iff v v).mpr ⟨hc, rfl⟩
  · intro h
    obtain ⟨hc, rfl⟩ := (validate_object_ok_iff v w).mp h
    exact (validate_object_ok_iff v v).mpr ⟨hc, rfl⟩
  · intro vs h
    obtain ⟨hc, rfl⟩ := (validate_enum_ok_iff v w vs).mp h
    exact (validate_enum_ok_iff v v vs).mpr ⟨hc, rfl⟩

/-- Witness for C8: idempotence exercised on a successful integer validation
and a successful enum validation at concrete inputs. -/
theorem idempotence_witness :
    validate_integer (.int 7) = .ok (.int 7) ∧
    validate_enum (.str "a") [.str "a"] = .ok (.str "a") :=
  ⟨(validators_idempotent (.int 7) (.int 7)).2.2.1 rfl,
   (validators_idempotent (.str "a") (.str "a")).2.2.2.2.2.2 [.str "a"] rfl⟩

/-- Claim C9: against an empty allowed sequence, `validate_enum` rejects every
value whatsoever — null included — raising `EnumMismatch` that carries the
empty sequence. -/
theorem empty_enum_rejects_everything (v : Value) :
    validate_enum v [] = .error (.enumMismatch []) :=
  rfl

/-- Claim C10: among the primitive validators only `validate_string` attaches
the offending value to the `TypeMismatch` it raises; the errors of
`validate_boolean`, `validate_integer`, `validate_number` (and of the array and
object validators) carry the expected-type descriptor alone, with no value. -/
theorem only_string_error_carries_value :
    (∀ v, isinstance_str v = false →
      validate_string v = .error (.typeMismatch .str (some v))) ∧
    (∀ v e, validate_boolean v = .error e → e = .typeMismatch .bool none) ∧
    (∀ v e, validate_integer v = .error e → e = .typeMismatch .int none) ∧
    (∀ v e, validate_number v = .error e → e = .typeMismatch .number none) ∧
    (∀ v e, validate_array v = .error e → e = .typeMismatch .array none) ∧
    (∀ v e, validate_object v = .error e → e = .typeMismatch .object none) := by
  refine ⟨?_, ?_, ?_, ?_, ?_, ?_⟩
  · intro v h
    simp [validate_string, h]
  · intro v e h
    cases v
    case bool b => cases b <;> simp_all [validate_boolean, is_True, is_False]
    all_goals simp_all [validate_boolean, is_True, is_False]
  · intro v e h
    cases v
    case bool b => cases b <;> simp_all [validate_integer, isinstance_int, is_True, is_False]
    all_goals simp_all [validate_integer, isinstance_int, is_True, is_False]
  · intro v e h
    cases v
    case bool b => cases b <;> simp_all [validate_number, isinstance_Number, is_True, is_False]
    all_goals simp_all [validate_number, isinstance_Number, is_True, is_False]
  · intro v e h
    cases v <;> simp_all [validate_array, isinstance_list]
  · intro v e h
    cases v <;> simp_all [validate_object, isinstance_dict]

/-- Witness for C10: the string validator attaches the offending value `3`,
while the boolean validator's error at the same input carries no value. -/
theorem error_payload_witness :
    validate_string (.int 3) = .error (.typeMismatch .str (some (.int 3))) ∧
    ValidationError.typeMismatch .bool none = .typeMismatch .bool none :=
  ⟨only_string_error_carries_value.1 (.int 3) rfl,
   only_string_error_carries_value.2.1 (.int 3) (.typeMismatch .bool none) rfl⟩
